import Mathlib

/-!
# Verification of the realtime synchronization layer of the elevator-scheduling client

This development embeds the synchronization layer of the elevator-scheduling
visualization client (WebSocket message handling, connection management,
reconnection scheduling, polling fallback, and command handlers) as Lean
functions and proves properties of them.

Sources embedded:
* `frontend/src/api/api.js` — `createWebSocketClient` (connection singleton,
  `onmessage` decode/dispatch, `onclose`, the `client` wrapper object);
* `frontend/src/App.js` — the `onMessage` state-update handler, the
  `onDisconnect` reconnection timeout, the unmount cleanup, `fetchEvents`,
  and the `handleStart/Stop/ResetSimulation` command handlers;
* `frontend/src/components/Statistics.jsx` — `fetchStats` and the rolling
  statistics history;
* `frontend/src/components/Controls.jsx` — `handleAddPassenger`.

JavaScript-specific semantics that matter here (string truthiness, `undefined`
from a missing property, `+`/`||` operator precedence, strict equality) are
modelled explicitly where the code relies on them.
-/

namespace ElevatorSync

/-! ## Message envelope and the App's `onMessage` handler

Inbound push frames are JSON objects `{ type: string, data: any }`
(`api.js` parses them, `App.js` routes on `data.type`).  The payload type is
left abstract: the handler stores `data.data` without inspecting it. -/

/-- An inbound push frame after JSON decoding: `{ type, data }`. -/
structure Frame (α : Type) where
  type : String
  data : α
deriving DecidableEq, Repr

/-- The `onMessage` callback registered by `App.js` (lines 21–25):
`if (data.type === 'state_update') setSimulationState(data.data)`.
The held snapshot starts as `null` (`none`) and is replaced wholesale by the
frame's `data` field when the kind matches; other kinds leave it unchanged. -/
def onMessage {α : Type} (st : Option α) (f : Frame α) : Option α :=
  if f.type = "state_update" then some f.data else st

/-- Processing a sequence of decoded frames in arrival order. -/
def processFrames {α : Type} (st : Option α) (fs : List (Frame α)) : Option α :=
  fs.foldl onMessage st

/-! ## The Message Dispatcher (`api.js` `ws.onmessage`, lines 126–133)

`ws.onmessage` wraps `JSON.parse` in try/catch: on success the decoded value
is handed to the `onMessage` callback; on failure the error is logged
(`console.error`) and the frame dropped.  `JSON.parse` itself is external
(a browser primitive), so the decoder is a parameter; the rest is the
repository's code. -/

/-- State visible to the dispatcher: the App's held snapshot plus the count of
errors recorded via `console.error`. -/
structure DispatcherState (α : Type) where
  snapshot : Option α
  errorsLogged : Nat
deriving DecidableEq, Repr

/-- One `ws.onmessage` event (`api.js` lines 126–133): try to decode the raw
text; on success dispatch to the App handler, on failure record the error and
drop the frame.  Total by construction — a decode failure never escapes. -/
def wsOnMessage {α : Type} (parse : String → Option (Frame α))
    (st : DispatcherState α) (raw : String) : DispatcherState α :=
  match parse raw with
  | some d => { st with snapshot := onMessage st.snapshot d }
  | none => { st with errorsLogged := st.errorsLogged + 1 }

/-- A sequence of raw frames delivered in arrival order. -/
def processRawFrames {α : Type} (parse : String → Option (Frame α))
    (st : DispatcherState α) (raws : List String) : DispatcherState α :=
  raws.foldl (wsOnMessage parse) st

/-! ## The events poll (`App.js` `fetchEvents`, lines 66–75)

`fetchEvents` replaces the local event list only when
`response.data && response.data.events` is truthy.  A request failure lands in
the catch block and changes nothing.  Truthiness of the optional fields is
modelled with `Option` (`none` = absent/null/undefined, i.e. falsy; note a
present empty array is truthy in JavaScript and so is `some []` here). -/

/-- The body of a `/events` response as read by `fetchEvents`: only the
`events` field is consulted. -/
structure EventsResponse (ε : Type) where
  events : Option (List ε)
deriving DecidableEq, Repr

/-- `fetchEvents` (`App.js` lines 66–75) acting on the local event list.
The response is `none` when the request failed (catch block), `some none`
when it succeeded with a falsy body, and `some (some r)` when `response.data`
is truthy. -/
def fetchEventsUpdate {ε : Type} (prev : List ε)
    (resp : Option (Option (EventsResponse ε))) : List ε :=
  match resp with
  | some (some r) =>
      match r.events with
      | some evs => evs
      | none => prev
  | some none => prev
  | none => prev

/-! ## The Connection Manager (`api.js` lines 94–165)

`createWebSocketClient` keeps a module-level `activeWebSocket`.  Crucially,
what is stored there (line 162) is the `client` wrapper object built at lines
146–159, whose only properties are `send`, `close` and `getState` — it has no
`readyState` property.  The guard at line 106 reads
`activeWebSocket.readyState`, which therefore evaluates to `undefined` in
JavaScript, and `undefined === WebSocket.OPEN` is false.  The embedding keeps
this property access explicit so the guard is translated, not repaired. -/

/-- The four WebSocket ready states. -/
inductive ReadyState where
  | CONNECTING
  | OPEN
  | CLOSING
  | CLOSED
deriving DecidableEq, Repr

/-- The numeric constants of the WebSocket API (`WebSocket.CONNECTING = 0`,
`OPEN = 1`, `CLOSING = 2`, `CLOSED = 3`). -/
def readyStateNum : ReadyState → Int
  | .CONNECTING => 0
  | .OPEN => 1
  | .CLOSING => 2
  | .CLOSED => 3

/-- `WebSocket.OPEN`. -/
def wsOPEN : Int := 1

/-- An underlying browser `WebSocket` object, identified by creation order. -/
structure RawSocket where
  id : Nat
  readyState : ReadyState
deriving DecidableEq, Repr

/-- The `client` wrapper object returned by `createWebSocketClient`
(`api.js` lines 146–159).  Its own properties are `send`, `close` and
`getState` (closures over the underlying socket, represented by its id);
it has no `readyState` property. -/
structure Client where
  wsId : Nat
deriving DecidableEq, Repr

/-- A JavaScript value as needed by the line-106 guard: either `undefined`
or a number. -/
inductive JSVal where
  | undefined
  | num (n : Int)
deriving DecidableEq, Repr

/-- Reading the `readyState` property from the stored `client` wrapper
(`activeWebSocket.readyState`, `api.js` line 106).  The object literal at
lines 146–159 defines only `send`, `close` and `getState`, so the property
lookup yields `undefined`. -/
def clientReadyStateProp (_c : Client) : JSVal := JSVal.undefined

/-- JavaScript strict equality `===` restricted to the values that occur in
the guard: `undefined === n` is false for every number `n`. -/
def strictEq : JSVal → JSVal → Bool
  | .undefined, .undefined => true
  | .num a, .num b => a == b
  | _, _ => false

/-- The module-level state of `api.js`: the `activeWebSocket` global, the
underlying sockets constructed so far, and a counter for fresh socket ids. -/
structure ApiModuleState where
  activeWebSocket : Option Client
  sockets : List RawSocket
  nextId : Nat
deriving DecidableEq, Repr

/-- Effect of `ws.close()` on a ready state: a `CONNECTING` or `OPEN` socket
moves to `CLOSING`; a closing or closed socket is unaffected. -/
def closeTransition : ReadyState → ReadyState
  | .CONNECTING => .CLOSING
  | .OPEN => .CLOSING
  | .CLOSING => .CLOSING
  | .CLOSED => .CLOSED

/-- `ws.close()` on an underlying socket. -/
def closeRawSocket (s : RawSocket) : RawSocket :=
  { s with readyState := closeTransition s.readyState }

/-- `client.close()` (`api.js` lines 154–157): `ws.close()` on the wrapped
socket, then `activeWebSocket = null`. -/
def clientClose (c : Client) (st : ApiModuleState) : ApiModuleState :=
  { st with
    sockets := st.sockets.map (fun s => if s.id = c.wsId then closeRawSocket s else s)
    activeWebSocket := none }

/-- `new WebSocket(...)` plus the construction of the `client` wrapper and
the assignment `activeWebSocket = client` (`api.js` lines 118–164). -/
def newConnection (st : ApiModuleState) : Client × ApiModuleState :=
  let ws : RawSocket := { id := st.nextId, readyState := .CONNECTING }
  let c : Client := { wsId := ws.id }
  (c, { st with
        sockets := st.sockets ++ [ws]
        nextId := st.nextId + 1
        activeWebSocket := some c })

/-- `createWebSocketClient` (`api.js` lines 104–165).
Line 106: `if (activeWebSocket && activeWebSocket.readyState === WebSocket.OPEN)
return activeWebSocket;` — the truthiness test is the `Option` match, the
strict-equality test reads `readyState` off the wrapper.
Lines 112–116: otherwise, if `activeWebSocket` is set, call its `close()`
and null it.  Then lines 118–164: construct a new socket and wrapper, store
and return it. -/
def createWebSocketClient (st : ApiModuleState) : Client × ApiModuleState :=
  match st.activeWebSocket with
  | some c =>
      if strictEq (clientReadyStateProp c) (JSVal.num wsOPEN) then
        (c, st)
      else
        newConnection { clientClose c st with activeWebSocket := none }
  | none => newConnection st

/-- A concrete module state in which one client was acquired and its
underlying socket has reached `OPEN`: `activeWebSocket` holds the wrapper for
socket 0, socket 0 is `OPEN`. -/
def openApiState : ApiModuleState :=
  { activeWebSocket := some { wsId := 0 }
    sockets := [{ id := 0, readyState := .OPEN }]
    nextId := 1 }

/-! ## Explicit close and the reconnection timeout (`App.js` lines 17–46)

The App registers an `onDisconnect` callback that runs `setTimeout(..., 3000)`
(lines 30–33); the timed callback clears `wsClientRef` so a later mount could
reconnect.  The unmount cleanup (lines 39–45) calls `client.close()` and
clears the ref.  `client.close()` (`api.js` lines 154–157) sets no
intentional-closure mark of any kind, and `ws.onclose` (lines 135–139)
unconditionally invokes `onDisconnect`, so the browser's close event after an
explicit `close()` drives the very same scheduling path as a dropped
connection. -/

/-- The fixed reconnection delay used by `App.js` line 33. -/
def RECONNECT_DELAY_MS : Nat := 3000

/-- State of the connection/reconnect interplay between `api.js` and
`App.js`: current clock (ms), the underlying socket's state, the App's
`wsClientRef`, the `activeWebSocket` global, and the fire times of the
scheduled reconnection timeouts. -/
structure ConnState where
  now : Nat
  wsReady : ReadyState
  wsClientRef : Option Client
  activeWebSocket : Option Client
  reconnectTimers : List Nat
deriving DecidableEq, Repr

/-- The App's unmount cleanup (`App.js` lines 39–45): if the ref holds a
client, call its `close()` (`ws.close()` then `activeWebSocket = null`) and
clear the ref. -/
def unmountCleanup (st : ConnState) : ConnState :=
  match st.wsClientRef with
  | some _ =>
      { st with
        wsReady := closeTransition st.wsReady
        activeWebSocket := none
        wsClientRef := none }
  | none => st

/-- Delivery of the browser's close event: the socket reaches `CLOSED`, then
`ws.onclose` (`api.js` lines 135–139) clears `activeWebSocket` and invokes
`onDisconnect`, whose body (`App.js` lines 30–33) schedules one
`setTimeout` with delay `RECONNECT_DELAY_MS`. -/
def deliverCloseEvent (st : ConnState) : ConnState :=
  { st with
    wsReady := .CLOSED
    activeWebSocket := none
    reconnectTimers := st.reconnectTimers ++ [st.now + RECONNECT_DELAY_MS] }

/-- A scheduled timeout with fire time `t` may run once the clock has
reached `t` — never earlier. -/
def timerCanFire (t now : Nat) : Bool := decide (t ≤ now)

/-- The body of the scheduled timeout (`App.js` lines 30–33): clear
`wsClientRef` so a new connection can be created.  The timer is consumed;
it runs only if it is pending and due. -/
def fireReconnectTimer (st : ConnState) (t : Nat) : ConnState :=
  if t ∈ st.reconnectTimers then
    if timerCanFire t st.now then
      { st with
        wsClientRef := none
        reconnectTimers := st.reconnectTimers.erase t }
    else st
  else st

/-- A concrete state with an open connection held by the App and no pending
timers. -/
def openConnState : ConnState :=
  { now := 0
    wsReady := .OPEN
    wsClientRef := some { wsId := 0 }
    activeWebSocket := some { wsId := 0 }
    reconnectTimers := [] }

/-! ## Polling gates (`App.js` lines 63–85, `Statistics.jsx` lines 35–71)

The events-poll effect (`App.js`) starts its interval exactly when
`isRunning` is true, and its cleanup clears the interval when the flag flips
or the component unmounts.  The statistics-poll effect (`Statistics.jsx`)
is gated by `if (simulationState && simulationState.time > 0)` with
dependency `[simulationState]` — it never reads the running flag. -/

/-- The simulation snapshot as consumed by the statistics gate: the only
field the synchronization layer reads is `time` (a number; the push payload
is otherwise opaque to this layer). -/
structure Snapshot where
  time : Int
deriving DecidableEq, Repr

/-- Whether the events-poll interval is active: the effect at `App.js`
lines 63–85 starts the interval iff `isRunning` is true. -/
def eventsPollingActive (isRunning : Bool) : Bool := isRunning

/-- Whether the statistics-poll interval is active: the guard at
`Statistics.jsx` line 64 is `simulationState && simulationState.time > 0`
(a null snapshot is falsy). -/
def statsPollingActive (simulationState : Option Snapshot) : Bool :=
  match simulationState with
  | none => false
  | some s => decide (0 < s.time)

/-! ## JavaScript string semantics used by the alert messages

`'prefix: ' + error.response?.data?.detail || error.message` parses as
`(('prefix: ') + detail) || message` because `+` binds tighter than `||`.
String concatenation with `undefined` yields the text `"undefined"`, and a
string is falsy exactly when it is empty. -/

/-- JavaScript coercion of an optional string to a string under `+`:
an absent value (`undefined`) prints as `"undefined"`. -/
def jsStringOfOpt : Option String → String
  | some s => s
  | none => "undefined"

/-- JavaScript `a || b` on strings: `a` is falsy exactly when empty. -/
def jsOrString (a b : String) : String :=
  if a.length = 0 then b else a

/-! ## Axios errors and the command handlers (`App.js` lines 87–126)

An Axios error carries an optional `response` (absent on transport errors)
whose `data` may carry a server-provided `detail`, plus a `message`
(the transport error text). -/

/-- `error.response.data` as consulted by the handlers. -/
structure ErrResponseData where
  detail : Option String
deriving DecidableEq, Repr

/-- `error.response`. -/
structure ErrResponse where
  data : Option ErrResponseData
deriving DecidableEq, Repr

/-- An Axios request error. -/
structure AxiosError where
  response : Option ErrResponse
  message : String
deriving DecidableEq, Repr

/-- The optional chain `error.response?.data?.detail`. -/
def errDetail (e : AxiosError) : Option String :=
  match e.response with
  | none => none
  | some r =>
      match r.data with
      | none => none
      | some d => d.detail

/-- The alert message built at `App.js` line 94:
`'Failed to start simulation: ' + error.response?.data?.detail || error.message`.
Because `+` binds tighter than `||`, the left operand of `||` is the
concatenation — a non-empty string — so `error.message` is unreachable. -/
def startFailureAlert (e : AxiosError) : String :=
  jsOrString ("Failed to start simulation: " ++ jsStringOfOpt (errDetail e)) e.message

/-- The local state the command handlers can touch: the running flag, the
held snapshot and the local event list (`App.js` lines 11–13). -/
structure AppState (σ ε : Type) where
  isRunning : Bool
  simulationState : Option σ
  events : List ε
deriving DecidableEq, Repr

/-- Outcome of a command handler: the new local state and the alert raised,
if any (`console.error` logging is not state). -/
structure HandlerOutcome (σ ε : Type) where
  state : AppState σ ε
  alert : Option String
deriving DecidableEq, Repr

/-- `handleStartSimulation` (`App.js` lines 88–96): on success set
`isRunning`; on failure leave state alone and alert with
`startFailureAlert`. -/
def handleStartSimulation {σ ε : Type} (st : AppState σ ε)
    (result : Except AxiosError Unit) : HandlerOutcome σ ε :=
  match result with
  | .ok _ => { state := { st with isRunning := true }, alert := none }
  | .error e => { state := st, alert := some (startFailureAlert e) }

/-- `handleStopSimulation` (`App.js` lines 99–106): on success clear
`isRunning`; on failure only `console.error` — no state change, no alert. -/
def handleStopSimulation {σ ε : Type} (st : AppState σ ε)
    (result : Except AxiosError Unit) : HandlerOutcome σ ε :=
  match result with
  | .ok _ => { state := { st with isRunning := false }, alert := none }
  | .error _ => { state := st, alert := none }

/-- `handleResetSimulation` (`App.js` lines 109–117): on success clear the
event list and the snapshot; on failure only `console.error`. -/
def handleResetSimulation {σ ε : Type} (st : AppState σ ε)
    (result : Except AxiosError Unit) : HandlerOutcome σ ε :=
  match result with
  | .ok _ => { state := { st with events := [], simulationState := none }, alert := none }
  | .error _ => { state := st, alert := none }

/-! ## `handleAddPassenger` (`Controls.jsx` lines 76–89)

The form handler validates `start_floor === destination_floor` before any
request; only past that guard does it call `api.addPassenger`, whose body is
`POST /passengers` with `{start_floor, destination_floor}`
(`api.js` lines 66–71). -/

/-- The validation alert raised at `Controls.jsx` line 79. -/
def validationAlertMsg : String := "Start and destination floors must be different"

/-- The alert message built at `Controls.jsx` line 87 (same `+`/`||`
precedence as the start handler). -/
def addPassengerFailureAlert (e : AxiosError) : String :=
  jsOrString ("Failed to add passenger: " ++ jsStringOfOpt (errDetail e)) e.message

/-- Outcome of `handleAddPassenger`: the request body actually posted to
`/passengers`, if any, and the alert raised, if any. -/
structure AddPassengerOutcome where
  request : Option (Int × Int)
  alert : Option String
deriving DecidableEq, Repr

/-- `handleAddPassenger` (`Controls.jsx` lines 76–89): reject locally when
the floors coincide, otherwise issue the request; `result` is the outcome of
that request when one is sent. -/
def handleAddPassenger (startFloor destFloor : Int)
    (result : Except AxiosError Unit) : AddPassengerOutcome :=
  if startFloor = destFloor then
    { request := none, alert := some validationAlertMsg }
  else
    { request := some (startFloor, destFloor)
      alert :=
        match result with
        | .ok _ => none
        | .error e => some (addPassengerFailureAlert e) }

/-! ## The statistics history (`Statistics.jsx` lines 36–61)

`fetchStats` appends one derived data point per poll whose response carries
data, then keeps only the last 20 via `slice(-20)`. -/

/-- The aggregate metrics read from a `/stats` response. -/
structure StatsData where
  average_wait_time : Int
  average_ride_time : Int
  average_total_time : Int
  total_completed_trips : Int
  total_waiting_passengers : Int
deriving DecidableEq, Repr

/-- A point of the rolling history (`Statistics.jsx` lines 45–52). -/
structure DataPoint where
  time : String
  waitTime : Int
  rideTime : Int
  totalTime : Int
  completedTrips : Int
  waitingPassengers : Int
deriving DecidableEq, Repr

/-- The data point derived from a response at timestamp `ts`. -/
def mkDataPoint (ts : String) (d : StatsData) : DataPoint :=
  { time := ts
    waitTime := d.average_wait_time
    rideTime := d.average_ride_time
    totalTime := d.average_total_time
    completedTrips := d.total_completed_trips
    waitingPassengers := d.total_waiting_passengers }

/-- The history cap (`Statistics.jsx` line 55, `slice(-20)`). -/
def HISTORY_CAP : Nat := 20

/-- JavaScript `l.slice(-n)`: the last `n` elements (all of them when the
list is shorter). -/
def sliceLast {α : Type} (n : Nat) (l : List α) : List α :=
  l.drop (l.length - n)

/-- One `fetchStats` tick (`Statistics.jsx` lines 36–61) acting on the
rolling history.  `resp` is `none` when the request failed (catch block),
`some none` when it succeeded with a falsy body (`if (response.data)` fails),
and `some (some d)` when metrics arrived; in the last case one point is
appended and the list truncated with `slice(-20)`. -/
def fetchStatsUpdate (prev : List DataPoint) (ts : String)
    (resp : Option (Option StatsData)) : List DataPoint :=
  match resp with
  | some (some d) => sliceLast HISTORY_CAP (prev ++ [mkDataPoint ts d])
  | some none => prev
  | none => prev

/-! ## Theorems -/

/-- Claim C1: for every nonempty sequence of inbound push frames whose kind is
`state_update`, after the `onMessage` handler has processed the sequence the
held snapshot equals the `data` payload of the last frame — each applied frame
replaces the snapshot wholesale, never merging with the previous one. -/
theorem state_update_sequence_replaces_snapshot {α : Type} (st : Option α)
    (fs : List (Frame α)) (hall : ∀ f ∈ fs, f.type = "state_update")
    (hne : fs ≠ []) :
    processFrames st fs = Option.map (fun f : Frame α => f.data) fs.getLast? := by
  rcases List.eq_nil_or_concat fs with h | ⟨xs, x, rfl⟩
  · exact absurd h hne
  · simp only [List.concat_eq_append] at hall ⊢
    simp [processFrames, List.foldl_append, onMessage, hall x (by simp),
      List.getLast?_concat]

/-- Witness for C1: two `state_update` frames with payloads 1 then 2 leave
snapshot `some 2`. -/
theorem state_update_sequence_replaces_snapshot_witness :
    processFrames (none : Option Int)
      [{ type := "state_update", data := 1 }, { type := "state_update", data := 2 }]
      = some 2 := by
  have h := state_update_sequence_replaces_snapshot (none : Option Int)
    [{ type := "state_update", data := 1 }, { type := "state_update", data := 2 }]
    (by decide) (by decide)
  simpa using h

/-- Claim C2 (code bug): with a stored client whose underlying socket is
`OPEN`, a second `createWebSocketClient` call does not return the stored
client and does construct a second socket.  The guard at `api.js` line 106
reads `readyState` off the wrapper object (which has no such property), so
`undefined === WebSocket.OPEN` is false, the open connection is closed and a
new one created — leaving two non-`CLOSED` sockets, against the claimed
singleton discipline and the code's own comment at line 105. -/
theorem acquire_while_open_creates_second_connection :
    (createWebSocketClient openApiState).1 ≠ { wsId := 0 } ∧
    (createWebSocketClient openApiState).1 = { wsId := 1 } ∧
    (createWebSocketClient openApiState).2.sockets
      = [{ id := 0, readyState := .CLOSING }, { id := 1, readyState := .CONNECTING }] ∧
    (createWebSocketClient openApiState).2.sockets.length = 2 := by
  decide

/-- Counterexample to claim C3: starting from an open connection held by the
App, the unmount cleanup performs the explicit `close()`, yet once the
socket's close event is delivered a reconnection timeout is scheduled —
nothing marks the closure as intentional. -/
theorem explicit_close_schedules_reconnect_counterexample :
    (deliverCloseEvent (unmountCleanup openConnState)).reconnectTimers = [3000] ∧
    (deliverCloseEvent (unmountCleanup openConnState)).reconnectTimers ≠ [] := by
  decide

/-- Claim C3 as amended: after an explicit `close()`, the close event still
invokes the disconnect callback, which schedules exactly the same single
reconnection timeout as an unintentional close — the code keeps no
intentional-closure mark. -/
theorem explicit_close_still_schedules_reconnect (st : ConnState) (c : Client)
    (href : st.wsClientRef = some c) :
    (deliverCloseEvent (unmountCleanup st)).reconnectTimers
      = st.reconnectTimers ++ [st.now + RECONNECT_DELAY_MS] ∧
    (deliverCloseEvent (unmountCleanup st)).reconnectTimers
      = (deliverCloseEvent st).reconnectTimers := by
  simp [unmountCleanup, deliverCloseEvent, href]

/-- Witness for the amended C3 at the concrete open-connection state. -/
theorem explicit_close_still_schedules_reconnect_witness :
    (deliverCloseEvent (unmountCleanup openConnState)).reconnectTimers
      = openConnState.reconnectTimers
        ++ [openConnState.now + RECONNECT_DELAY_MS] :=
  (explicit_close_still_schedules_reconnect openConnState { wsId := 0 } rfl).1

/-- Claim C4: each delivery of an unintentional close event schedules exactly
one reconnection timeout, with fire time the disconnect time plus the fixed
3000 ms delay; the timeout cannot fire before that time and is allowed to
fire at it. -/
theorem unintentional_close_schedules_one_delayed_attempt (st : ConnState) :
    (deliverCloseEvent st).reconnectTimers
      = st.reconnectTimers ++ [st.now + RECONNECT_DELAY_MS] ∧
    (deliverCloseEvent st).reconnectTimers.length
      = st.reconnectTimers.length + 1 ∧
    (∀ n : Nat, n < st.now + RECONNECT_DELAY_MS →
      timerCanFire (st.now + RECONNECT_DELAY_MS) n = false) ∧
    timerCanFire (st.now + RECONNECT_DELAY_MS) (st.now + RECONNECT_DELAY_MS)
      = true := by
  refine ⟨rfl, by simp [deliverCloseEvent], fun n hn => ?_, by simp [timerCanFire]⟩
  simp only [timerCanFire, decide_eq_false_iff_not]
  omega

/-- Witness for C4 at the concrete open-connection state. -/
theorem unintentional_close_schedules_one_delayed_attempt_witness :
    (deliverCloseEvent openConnState).reconnectTimers.length
      = openConnState.reconnectTimers.length + 1 :=
  (unintentional_close_schedules_one_delayed_attempt openConnState).2.1

/-- Counterexample to claim C5: with the running flag false but a held
snapshot whose `time` is positive (the situation after a stop, since the last
pushed snapshot persists), the statistics poll is active — the statistics
timer is gated by the snapshot, not by the running flag, so the claimed
"active iff running" equivalence fails. -/
theorem stats_polling_active_while_not_running :
    eventsPollingActive false = false ∧
    statsPollingActive (some { time := 5 }) = true := by
  decide

/-- Claim C5 as amended: the events timer is active exactly when the running
flag is true, while the statistics timer is active exactly when the held
snapshot is non-null with positive `time`, independently of the running
flag. -/
theorem polling_gates_characterized (isRunning : Bool) (s : Option Snapshot) :
    (eventsPollingActive isRunning = true ↔ isRunning = true) ∧
    (statsPollingActive s = true ↔ ∃ t : Int, s = some { time := t } ∧ 0 < t) := by
  refine ⟨Iff.rfl, ?_⟩
  cases s with
  | none => simp [statsPollingActive]
  | some snap =>
      obtain ⟨t⟩ := snap
      simp [statsPollingActive, Snapshot.mk.injEq]

/-- Witness for the amended C5: a snapshot with `time = 7` makes the
statistics gate true. -/
theorem polling_gates_characterized_witness :
    statsPollingActive (some { time := 7 }) = true :=
  (polling_gates_characterized true (some { time := 7 })).2.mpr ⟨7, rfl, by decide⟩

/-- Counterexample to claim C6: on a transport error with no server response,
the start handler's alert is `"Failed to start simulation: undefined"` — the
`+`/`||` precedence makes the `error.message` fallback unreachable — and the
stop handler's failure raises no alert at all. -/
theorem start_failure_alert_hides_transport_error :
    startFailureAlert { response := none, message := "Network Error" }
      = "Failed to start simulation: undefined" ∧
    (handleStopSimulation
      ({ isRunning := true, simulationState := some 3, events := [] } : AppState Int Int)
      (.error { response := none, message := "Network Error" })).alert = none := by
  constructor
  · rfl
  · rfl

/-- Claim C6 as amended: every failed command leaves the running flag, the
snapshot and the event list unchanged; the start handler alerts with the
server detail when present and with the literal text `undefined` otherwise
(never the transport error); the stop and reset handlers raise no alert on
failure. -/
theorem command_failures_leave_state_unchanged {σ ε : Type} (st : AppState σ ε)
    (e : AxiosError) :
    (handleStartSimulation st (.error e)).state = st ∧
    (handleStopSimulation st (.error e)).state = st ∧
    (handleResetSimulation st (.error e)).state = st ∧
    (handleStartSimulation st (.error e)).alert = some (startFailureAlert e) ∧
    (∀ d : String, errDetail e = some d →
      startFailureAlert e = "Failed to start simulation: " ++ d) ∧
    (errDetail e = none →
      startFailureAlert e = "Failed to start simulation: undefined") ∧
    (handleStopSimulation st (.error e)).alert = none ∧
    (handleResetSimulation st (.error e)).alert = none := by
  have hlen : ∀ s : String, ("Failed to start simulation: " ++ s).length ≠ 0 := by
    intro s
    rw [String.length_append]
    have h28 : (0 : Nat) < "Failed to start simulation: ".length := by decide
    omega
  refine ⟨rfl, rfl, rfl, rfl, ?_, ?_, rfl, rfl⟩
  · intro d hd
    simp only [startFailureAlert, hd, jsStringOfOpt, jsOrString]
    rw [if_neg (hlen d)]
  · intro hd
    simp only [startFailureAlert, hd, jsStringOfOpt, jsOrString]
    rw [if_neg (hlen "undefined")]
    decide

/-- Witness for the amended C6 at a concrete state and error carrying a
server detail. -/
theorem command_failures_leave_state_unchanged_witness :
    (handleStartSimulation
      ({ isRunning := false, simulationState := none, events := [] } : AppState Int Int)
      (.error { response := some { data := some { detail := some "boom" } },
                message := "m" })).state
      = { isRunning := false, simulationState := none, events := [] } :=
  (command_failures_leave_state_unchanged
    ({ isRunning := false, simulationState := none, events := [] } : AppState Int Int)
    { response := some { data := some { detail := some "boom" } }, message := "m" }).1

/-- Claim C7: a raw frame that fails to decode is dropped — the error is
recorded, the snapshot is unchanged (the dispatcher is a total function, so
no failure propagates) — and a subsequent valid frame is processed exactly as
it would have been without the malformed one. -/
theorem malformed_frame_dropped {α : Type} (parse : String → Option (Frame α))
    (st : DispatcherState α) (bad good : String) (f : Frame α)
    (hbad : parse bad = none) (hgood : parse good = some f) :
    (wsOnMessage parse st bad).snapshot = st.snapshot ∧
    (wsOnMessage parse st bad).errorsLogged = st.errorsLogged + 1 ∧
    (processRawFrames parse st [bad, good]).snapshot
      = (processRawFrames parse st [good]).snapshot := by
  refine ⟨?_, ?_, ?_⟩ <;>
    simp [wsOnMessage, processRawFrames, hbad, hgood]

/-- Witness for C7 with a concrete decoder: `"ok"` decodes to a
`state_update` frame, `"{"` fails to decode. -/
theorem malformed_frame_dropped_witness :
    (wsOnMessage
      (fun s => if s = "ok" then some { type := "state_update", data := (1 : Int) } else none)
      { snapshot := none, errorsLogged := 0 } "\x7b").snapshot = none ∧
    (wsOnMessage
      (fun s => if s = "ok" then some { type := "state_update", data := (1 : Int) } else none)
      { snapshot := none, errorsLogged := 0 } "\x7b").errorsLogged = 0 + 1 :=
  ⟨(malformed_frame_dropped
      (fun s => if s = "ok" then some { type := "state_update", data := (1 : Int) } else none)
      { snapshot := none, errorsLogged := 0 } "\x7b" "ok"
      { type := "state_update", data := (1 : Int) } (by decide) (by decide)).1,
   (malformed_frame_dropped
      (fun s => if s = "ok" then some { type := "state_update", data := (1 : Int) } else none)
      { snapshot := none, errorsLogged := 0 } "\x7b" "ok"
      { type := "state_update", data := (1 : Int) } (by decide) (by decide)).2.1⟩

/-- Claim C8: when the start floor equals the destination floor,
`handleAddPassenger` sends no request and synchronously reports the
validation failure. -/
theorem addPassenger_equal_floors_rejected_locally (startFloor destFloor : Int)
    (result : Except AxiosError Unit) (heq : startFloor = destFloor) :
    (handleAddPassenger startFloor destFloor result).request = none ∧
    (handleAddPassenger startFloor destFloor result).alert
      = some validationAlertMsg := by
  simp [handleAddPassenger, heq]

/-- Witness for C8 at `addPassenger(5, 5)`. -/
theorem addPassenger_equal_floors_rejected_locally_witness :
    (handleAddPassenger 5 5 (.ok ())).request = none ∧
    (handleAddPassenger 5 5 (.ok ())).alert = some validationAlertMsg :=
  addPassenger_equal_floors_rejected_locally 5 5 (.ok ()) rfl

/-- Claim C9: every statistics poll keeps the rolling history at no more than
20 points; a poll that returns metrics appends exactly one derived point when
the history is below the cap, and evicts the oldest point when the history
already holds 20. -/
theorem stats_history_appends_one_capped_at_20 (prev : List DataPoint)
    (ts : String) (d : StatsData) (hlen : prev.length ≤ HISTORY_CAP) :
    (∀ resp : Option (Option StatsData),
      (fetchStatsUpdate prev ts resp).length ≤ HISTORY_CAP) ∧
    (prev.length < HISTORY_CAP →
      fetchStatsUpdate prev ts (some (some d)) = prev ++ [mkDataPoint ts d]) ∧
    (prev.length = HISTORY_CAP →
      fetchStatsUpdate prev ts (some (some d))
        = prev.drop 1 ++ [mkDataPoint ts d]) := by
  refine ⟨?_, ?_, ?_⟩
  · intro resp
    match resp with
    | none => simpa [fetchStatsUpdate] using hlen
    | some none => simpa [fetchStatsUpdate] using hlen
    | some (some d') =>
        simp only [fetchStatsUpdate, sliceLast, List.length_drop, List.length_append,
          List.length_singleton]
        omega
  · intro hlt
    have h0 : prev.length + 1 - HISTORY_CAP = 0 := by omega
    simp [fetchStatsUpdate, sliceLast, h0]
  · intro heq
    have h1 : prev.length + 1 - HISTORY_CAP = 1 := by omega
    have hone : 1 ≤ prev.length := by
      rw [heq]
      decide
    simp [fetchStatsUpdate, sliceLast, h1, List.drop_append_of_le_length hone]

/-- Witness for C9 starting from an empty history. -/
theorem stats_history_appends_one_capped_at_20_witness :
    fetchStatsUpdate [] "t"
      (some (some { average_wait_time := 1, average_ride_time := 2,
                    average_total_time := 3, total_completed_trips := 4,
                    total_waiting_passengers := 5 }))
      = [] ++ [mkDataPoint "t"
          { average_wait_time := 1, average_ride_time := 2,
            average_total_time := 3, total_completed_trips := 4,
            total_waiting_passengers := 5 }] :=
  (stats_history_appends_one_capped_at_20 [] "t"
    { average_wait_time := 1, average_ride_time := 2, average_total_time := 3,
      total_completed_trips := 4, total_waiting_passengers := 5 }
    (by decide)).2.1 (by decide)

/-- Claim C10: an events poll changes the local event list only when the
response carries a truthy `data` object with a truthy `events` field; a
failed request, a falsy body, or a body without `events` leaves the list
untouched, and a present `events` list replaces it wholesale. -/
theorem events_poll_requires_truthy_fields {ε : Type} (prev : List ε) :
    fetchEventsUpdate prev (none : Option (Option (EventsResponse ε))) = prev ∧
    fetchEventsUpdate prev (some none) = prev ∧
    fetchEventsUpdate prev (some (some { events := none })) = prev ∧
    ∀ evs : List ε, fetchEventsUpdate prev (some (some { events := some evs })) = evs := by
  exact ⟨rfl, rfl, rfl, fun _ => rfl⟩

end ElevatorSync
